import Mathlib

/-!
Shallow embedding of the sensor-driver core of the esp32-security-system
repository, and proofs of the specification claims about it.

Modelling conventions:
* C `float`/`double` arithmetic is modelled exactly over `ℚ` (all values the
  drivers compute — byte-sized integers and products with the constant
  `0.034 = 34/1000` — are handled exactly by the formulas in question).
* Machine integers are modelled as `Nat`/`Int`; the `uint32_t` motion counter
  wraps with an explicit `% 2^32`; `int64_t` microsecond timestamps are `Int`
  and C truncating division is `Int.tdiv`.
* A C pointer argument is an `Option` of the pointee: `none` models `NULL`.
* GPIO busy-poll loops sample the line once per microsecond tick against a
  monotonic microsecond clock, mirroring the source's
  `while (level != target) if (now - start > timeout) fail` structure: the
  poll succeeds at the first matching sample within the timeout window.
* `esp_rom_delay_us` and successful `gpio_config`/`gpio_set_level` calls have
  no effect on driver state; the DHT11 model additionally records the pin
  direction/level mutations a call performs, so that "no bus activity" is a
  statement about an empty action trace.
-/

/-- ESP-IDF error codes used by the three drivers. -/
inductive esp_err_t
  | ESP_OK
  | ESP_ERR_INVALID_ARG
  | ESP_ERR_TIMEOUT
  | ESP_ERR_INVALID_STATE
  | ESP_ERR_INVALID_CRC
deriving DecidableEq, Repr

/-! ## PIR motion driver (`src/components/pir_sensor/pir.c`) -/

/-- State of `pir_sensor_t` as used by `pir.c` (pin, edge-detection memory,
debounce window in ms, last counted trigger timestamp in µs, event counter). -/
structure pir_sensor_t where
  pin_num : Nat
  last_state : Bool
  motion_count : Nat
  debounce_ms : Nat
  last_trigger_time : Int
deriving DecidableEq, Repr

/-- Model of `pir_init`: `NULL` handle is rejected with `ESP_ERR_INVALID_ARG`;
otherwise the structure is initialised exactly as in the source
(`last_state = false`, `motion_count = 0`, `debounce_ms = 50`,
`last_trigger_time = 0`).  `gpio_config` is modelled as succeeding. -/
def pir_init (pir : Option pir_sensor_t) (pin : Nat) :
    Option pir_sensor_t × esp_err_t :=
  match pir with
  | none => (none, .ESP_ERR_INVALID_ARG)
  | some _ =>
    (some { pin_num := pin, last_state := false, motion_count := 0,
            debounce_ms := 50, last_trigger_time := 0 }, .ESP_OK)

/-- Model of `pir_read`.  `current_state` is the raw digital level sampled by
`gpio_get_level`, `current_time` the value of `esp_timer_get_time()` (µs).
Mirrors the source: on a rising edge, if
`(current_time - last_trigger_time) / 1000 >= debounce_ms` (C truncating
int64 division), the `uint32_t` counter is incremented (wrapping) and the
trigger time recorded; `last_state` is always updated; the raw level is
returned.  A `NULL` handle returns `false` and touches nothing. -/
def pir_read (pir : Option pir_sensor_t) (current_state : Bool)
    (current_time : Int) : Option pir_sensor_t × Bool :=
  match pir with
  | none => (none, false)
  | some p =>
    let time_diff_ms : Int := Int.tdiv (current_time - p.last_trigger_time) 1000
    let p1 :=
      if current_state = true ∧ p.last_state = false then
        if time_diff_ms ≥ (p.debounce_ms : Int) then
          { p with motion_count := (p.motion_count + 1) % 2 ^ 32,
                   last_trigger_time := current_time }
        else p
      else p
    (some { p1 with last_state := current_state }, current_state)

/-- Model of `pir_get_motion_count`: `0` on a `NULL` handle. -/
def pir_get_motion_count (pir : Option pir_sensor_t) : Nat :=
  match pir with
  | none => 0
  | some p => p.motion_count

/-! ## Bounded busy-poll primitive shared by the timing drivers -/

/-- Busy-poll loop: starting at time `t`, sample `lvl` once per microsecond;
return the first sample time at which the line equals `target`, giving up
after `fuel` further samples.  `wait_for_level lvl target start timeout`
instantiates `fuel := timeout`, so the success window is elapsed time
`≤ timeout`, matching the source's `if (now - start > timeout) fail` check. -/
def wait_go (lvl : Nat → Bool) (target : Bool) : Nat → Nat → Option Nat
  | t, 0 => if lvl t = target then some t else none
  | t, fuel + 1 => if lvl t = target then some t else wait_go lvl target (t + 1) fuel

/-- Bounded wait for a GPIO level, as used by both the HC-SR04 echo loops and
the DHT11 `wait_for_level` helper. -/
def wait_for_level (lvl : Nat → Bool) (target : Bool) (start timeout : Nat) :
    Option Nat :=
  wait_go lvl target start timeout

/-! ## HC-SR04 ranging driver (`src/unnamed/part_004`, `hcsr04.c`) -/

/-- State of `hcsr04_sensor_t` relevant to ranging: the last successfully
measured distance (a C `float`, modelled in `ℚ`) and the configured echo
timeout in µs.  Pin identities play no role in the modelled behaviour. -/
structure hcsr04_sensor_t where
  last_distance_cm : ℚ
  timeout_us : Nat
deriving DecidableEq, Repr

/-- Model of `hcsr04_read_distance`.  `lvl` is the echo line as a function of
the microsecond clock and `t0` the clock value when the rise-wait begins
(just after the 2 µs low / 10 µs high trigger pulse, which does not affect
driver state).  Phase 1 waits for the echo to go high within `timeout_us` of
`t0`; phase 2 waits for it to go low within `timeout_us` of the recorded rise
time `echo_start`.  On success the stored distance becomes
`pulse_width * 0.034 / 2`; on either timeout the state is returned unchanged
with `ESP_ERR_TIMEOUT`.  A `NULL` handle yields `ESP_ERR_INVALID_ARG`. -/
def hcsr04_read_distance (sensor : Option hcsr04_sensor_t)
    (lvl : Nat → Bool) (t0 : Nat) : Option hcsr04_sensor_t × esp_err_t :=
  match sensor with
  | none => (none, .ESP_ERR_INVALID_ARG)
  | some s =>
    match wait_for_level lvl true t0 s.timeout_us with
    | none => (some s, .ESP_ERR_TIMEOUT)
    | some echo_start =>
      match wait_for_level lvl false echo_start s.timeout_us with
      | none => (some s, .ESP_ERR_TIMEOUT)
      | some echo_end =>
        let pulse_width : Nat := echo_end - echo_start
        (some { s with last_distance_cm := (pulse_width : ℚ) * (34 / 1000) / 2 },
         .ESP_OK)

/-- Model of `hcsr04_get_last_distance`: `0` on a `NULL` handle. -/
def hcsr04_get_last_distance (sensor : Option hcsr04_sensor_t) : ℚ :=
  match sensor with
  | none => 0
  | some s => s.last_distance_cm

/-! ## DHT11 environmental driver (`src/main_hub/components/dht11/dht11.c`) -/

/-- State of `dht11_sensor_t`: data pin, last stored temperature and humidity
(C `float`s, modelled in `ℚ`) and the timestamp (µs) of the last successful
read. -/
structure dht11_sensor_t where
  pin : Nat
  last_temperature : ℚ
  last_humidity : ℚ
  last_read_time_us : Int
deriving DecidableEq, Repr

/-- A pin-level or pin-direction mutation performed on the DHT11 bus by the
host.  `dht11_read` reports the list of such actions it performed, so that
"no bus activity" is the statement that the list is empty. -/
inductive BusAction
  | set_direction_output
  | set_level_low
  | set_level_high
  | set_direction_input
deriving DecidableEq, Repr

/-- Outcome of reading one of the 40 data bits: either some bounded wait
timed out (waiting for the start-of-bit LOW, waiting for the HIGH phase, or
measuring the HIGH pulse), or the HIGH pulse width in µs was measured. -/
inductive BitRead
  | timeout
  | pulse (width : Nat)
deriving DecidableEq, Repr

/-- The environment a single `dht11_read` call observes: the clock (µs) at
the rate-limit check, whether the sensor's LOW and HIGH acknowledgement
arrived within their 100 µs windows, the 40 per-bit outcomes, and the clock
at the success-timestamp update. -/
structure DhtEnv where
  cur_time : Int
  resp_low_ok : Bool
  resp_high_ok : Bool
  bits : List BitRead
  end_time : Int

/-- The bit-assembly loop of `read_data_bits`: `n` iterations remain, `i` is
the loop index, `data` the five bytes built so far.  Each iteration consumes
one `BitRead`; a timeout (or exhausted input) aborts with `none`; a measured
pulse sets bit `7 - i % 8` of byte `i / 8` when its width exceeds the 40 µs
threshold `DHT11_BIT_THRESHOLD_US`. -/
def assemble_bits : Nat → Nat → List Nat → List BitRead → Option (List Nat)
  | 0, _, data, _ => some data
  | _ + 1, _, _, [] => none
  | _ + 1, _, _, .timeout :: _ => none
  | n + 1, i, data, .pulse w :: rest =>
    let byte_index := i / 8
    let bit_position := 7 - i % 8
    let data1 :=
      if w > 40 then
        data.set byte_index (data.getD byte_index 0 ||| 1 <<< bit_position)
      else data
    assemble_bits n (i + 1) data1 rest

/-- Model of `read_data_bits`: assemble 40 bits into 5 bytes; any timeout
yields `ESP_ERR_TIMEOUT` with the state untouched.  The `uint8_t` checksum
`data[0]+data[1]+data[2]+data[3]` (mod 256) is compared with `data[4]`; a
mismatch yields `ESP_ERR_INVALID_CRC` with the state untouched; on a match
the integer humidity byte `data[0]` and integer temperature byte `data[2]`
are stored. -/
def read_data_bits (sensor : dht11_sensor_t) (bits : List BitRead) :
    dht11_sensor_t × esp_err_t :=
  match assemble_bits 40 0 (List.replicate 5 0) bits with
  | none => (sensor, .ESP_ERR_TIMEOUT)
  | some data =>
    let checksum := (data.getD 0 0 + data.getD 1 0 + data.getD 2 0 + data.getD 3 0) % 256
    if checksum ≠ data.getD 4 0 then (sensor, .ESP_ERR_INVALID_CRC)
    else
      ({ sensor with last_humidity := (data.getD 0 0 : ℚ),
                     last_temperature := (data.getD 2 0 : ℚ) }, .ESP_OK)

/-- Actions `dht11_read` performs on the bus once past the rate limit: pin to
output, drive LOW 18 ms, drive HIGH 30 µs, release to input. -/
def dht11_start_actions : List BusAction :=
  [.set_direction_output, .set_level_low, .set_level_high, .set_direction_input]

/-- Model of `dht11_read`.  A `NULL` handle fails with `ESP_ERR_INVALID_ARG`.
If fewer than `DHT11_MIN_READ_INTERVAL_MS * 1000 = 2000000` µs have elapsed
since `last_read_time_us`, it fails with `ESP_ERR_INVALID_STATE` before any
bus action.  Otherwise it performs the start-signal actions, waits for the
sensor's LOW then HIGH acknowledgement (timeout fails the read), decodes the
40 bits via `read_data_bits`, and only on full success records
`last_read_time_us := end_time`.  `gpio_set_direction`/`gpio_set_level` are
modelled as succeeding. -/
def dht11_read (sensor : Option dht11_sensor_t) (env : DhtEnv) :
    Option dht11_sensor_t × esp_err_t × List BusAction :=
  match sensor with
  | none => (none, .ESP_ERR_INVALID_ARG, [])
  | some s =>
    if env.cur_time - s.last_read_time_us < 2000 * 1000 then
      (some s, .ESP_ERR_INVALID_STATE, [])
    else if env.resp_low_ok = false then
      (some s, .ESP_ERR_TIMEOUT, dht11_start_actions)
    else if env.resp_high_ok = false then
      (some s, .ESP_ERR_TIMEOUT, dht11_start_actions)
    else
      match read_data_bits s env.bits with
      | (s1, .ESP_OK) =>
        (some { s1 with last_read_time_us := env.end_time }, .ESP_OK,
         dht11_start_actions)
      | (s1, e) => (some s1, e, dht11_start_actions)

/-- Model of `dht11_init`: `NULL` handle rejected; otherwise the structure is
initialised with zero stored values and `last_read_time_us = 0`. -/
def dht11_init (sensor : Option dht11_sensor_t) (pin : Nat) :
    Option dht11_sensor_t × esp_err_t :=
  match sensor with
  | none => (none, .ESP_ERR_INVALID_ARG)
  | some _ =>
    (some { pin := pin, last_temperature := 0, last_humidity := 0,
            last_read_time_us := 0 }, .ESP_OK)

/-- Model of `dht11_get_temperature`: `0.0` on a `NULL` handle. -/
def dht11_get_temperature (sensor : Option dht11_sensor_t) : ℚ :=
  match sensor with
  | none => 0
  | some s => s.last_temperature

/-- Model of `dht11_get_humidity`: `0.0` on a `NULL` handle. -/
def dht11_get_humidity (sensor : Option dht11_sensor_t) : ℚ :=
  match sensor with
  | none => 0
  | some s => s.last_humidity

/-! ## Task descriptors and scheduling (`src/unnamed/part_001`, `main.c`) -/

/-- A task created by `app_main`: its FreeRTOS priority, its period in ms,
and whether its loop schedules with `vTaskDelayUntil` (absolute-deadline:
next wake computed from the previous scheduled wake plus the period). -/
structure TaskSpec where
  priority : Nat
  period_ms : Nat
  delay_until : Bool
deriving DecidableEq, Repr

/-- Task `pir_task`: priority 5, period 100 ms via `vTaskDelayUntil`. -/
def pir_task_spec : TaskSpec := { priority := 5, period_ms := 100, delay_until := true }

/-- Task `ultrasonic_task`: priority 4, period 200 ms via `vTaskDelayUntil`. -/
def ultrasonic_task_spec : TaskSpec := { priority := 4, period_ms := 200, delay_until := true }

/-- Task `dht11_task`: priority 3, period 3000 ms via `vTaskDelayUntil`. -/
def dht11_task_spec : TaskSpec := { priority := 3, period_ms := 3000, delay_until := true }

/-- Task `lcd_task`: priority 2, period 1000 ms via `vTaskDelayUntil`. -/
def lcd_task_spec : TaskSpec := { priority := 2, period_ms := 1000, delay_until := true }

/-- Task `ble_client_task` is created at priority 3; it has no fixed period (it
uses plain relative `vTaskDelay` of 5000 or 1000 ms depending on connection
state), so only its priority is modelled. -/
def ble_client_task_priority : Nat := 3

/-- The fixed-period tasks created by `app_main`. -/
def periodic_tasks : List TaskSpec :=
  [pir_task_spec, ultrasonic_task_spec, dht11_task_spec, lcd_task_spec]

/-- FreeRTOS `vTaskDelayUntil` semantics on the wake time variable: the next
wake point is the previous scheduled wake time plus the period. -/
def vTaskDelayUntil (prev_wake period : Nat) : Nat := prev_wake + period

/-- The `n`-th scheduled wake time of a task that starts at `start` and calls
`vTaskDelayUntil` with a fixed `period` each cycle. -/
def task_wake (start period : Nat) : Nat → Nat
  | 0 => start
  | n + 1 => vTaskDelayUntil (task_wake start period n) period

/-! ## Shared snapshot store (`sensor_data` in `src/unnamed/part_001`) -/

/-- The mutex-guarded shared snapshot `sensor_data` (the mutex handle itself
carries no data). -/
structure sensor_data_t where
  motion_detected : Bool
  distance_cm : ℚ
  temperature : ℚ
  humidity : ℚ
  remote_motion_detected : Bool
  remote_connected : Bool
deriving DecidableEq, Repr

/-- The snapshot contents set up by `app_main` before any task runs. -/
def sensor_data_init : sensor_data_t :=
  { motion_detected := false, distance_cm := 0, temperature := 0,
    humidity := 0, remote_motion_detected := false, remote_connected := false }

/-- Names of the six snapshot fields. -/
inductive SnapField
  | motion_detected
  | distance_cm
  | temperature
  | humidity
  | remote_motion_detected
  | remote_connected
deriving DecidableEq, Repr

/-- The value type carried by each snapshot field. -/
@[reducible] def SnapField.Ty : SnapField → Type
  | .motion_detected => Bool
  | .distance_cm => ℚ
  | .temperature => ℚ
  | .humidity => ℚ
  | .remote_motion_detected => Bool
  | .remote_connected => Bool

/-- Write one snapshot field (performed inside the mutex critical section,
hence atomic with respect to other writers and the copying reader). -/
def setField (s : sensor_data_t) : (f : SnapField) → f.Ty → sensor_data_t
  | .motion_detected, v => { s with motion_detected := v }
  | .distance_cm, v => { s with distance_cm := v }
  | .temperature, v => { s with temperature := v }
  | .humidity, v => { s with humidity := v }
  | .remote_motion_detected, v => { s with remote_motion_detected := v }
  | .remote_connected, v => { s with remote_connected := v }

/-- Read one snapshot field (as the `lcd_task` snapshot copy does under the
mutex). -/
def getField (s : sensor_data_t) : (f : SnapField) → f.Ty
  | .motion_detected => s.motion_detected
  | .distance_cm => s.distance_cm
  | .temperature => s.temperature
  | .humidity => s.humidity
  | .remote_motion_detected => s.remote_motion_detected
  | .remote_connected => s.remote_connected

/-- One mutex-protected field write: the field and the value written. -/
structure FieldWrite where
  field : SnapField
  val : field.Ty

/-- Apply an interleaving of atomic field writes in order.  Because every
write in the program holds `sensor_data.mutex` around its assignment, any
concurrent execution of a set of writes is equivalent to applying them in
some sequential order. -/
def applyWrites (s : sensor_data_t) (ws : List FieldWrite) : sensor_data_t :=
  ws.foldl (fun acc w => setField acc w.field w.val) s

/-- The tasks (and the BLE GAP event handler, which runs on the NimBLE host
task) that touch the snapshot. -/
inductive TaskId
  | pir_task
  | ultrasonic_task
  | dht11_task
  | ble_handler
  | lcd_task
deriving DecidableEq, Repr

/-- The ownership map: the unique task designated to write each field
(remote fields belong to the wireless handler). -/
def field_owner : SnapField → TaskId
  | .motion_detected => .pir_task
  | .distance_cm => .ultrasonic_task
  | .temperature => .dht11_task
  | .humidity => .dht11_task
  | .remote_motion_detected => .ble_handler
  | .remote_connected => .ble_handler

/-- Every snapshot-field store occurring in the program text of
`src/unnamed/part_001` after initialisation, as (writing task, field) pairs:
`pir_task` writes `motion_detected`; `ultrasonic_task` writes `distance_cm`;
`dht11_task` writes `temperature` and `humidity`; the BLE GAP event handler
writes `remote_connected` (the write to `remote_motion_detected` is still a
TODO stub). -/
def program_writes : List (TaskId × SnapField) :=
  [(.pir_task, .motion_detected),
   (.ultrasonic_task, .distance_cm),
   (.dht11_task, .temperature),
   (.dht11_task, .humidity),
   (.ble_handler, .remote_connected)]

/-! ## Helper lemmas -/

/-- If the line first equals `target` at time `u` within the poll window, the
busy-poll finds exactly `u`. -/
theorem wait_go_finds (lvl : Nat → Bool) (target : Bool) :
    ∀ (fuel t u : Nat), t ≤ u → u ≤ t + fuel →
      (∀ v, t ≤ v → v < u → lvl v ≠ target) → lvl u = target →
      wait_go lvl target t fuel = some u := by
  intro fuel
  induction fuel with
  | zero =>
    intro t u h1 h2 _ h4
    have : t = u := le_antisymm h1 (by omega)
    subst this
    simp [wait_go, h4]
  | succ n ih =>
    intro t u h1 h2 h3 h4
    by_cases h : lvl t = target
    · have : t = u := by
        by_contra hne
        exact h3 t le_rfl (lt_of_le_of_ne h1 hne) h
      subst this
      simp [wait_go, h]
    · have htu : t < u := lt_of_le_of_ne h1 (fun he => h (he ▸ h4))
      have : wait_go lvl target (t + 1) n = some u :=
        ih (t + 1) u (by omega) (by omega) (fun v hv1 hv2 => h3 v (by omega) hv2) h4
      simp [wait_go, h, this]

/-- If the line never equals `target` anywhere in the poll window, the
busy-poll times out. -/
theorem wait_go_none (lvl : Nat → Bool) (target : Bool) :
    ∀ (fuel t : Nat), (∀ v, t ≤ v → v ≤ t + fuel → lvl v ≠ target) →
      wait_go lvl target t fuel = none := by
  intro fuel
  induction fuel with
  | zero =>
    intro t h
    simp [wait_go, h t le_rfl (by omega)]
  | succ n ih =>
    intro t h
    have h0 : lvl t ≠ target := h t le_rfl (by omega)
    have : wait_go lvl target (t + 1) n = none :=
      ih (t + 1) (fun v hv1 hv2 => h v (by omega) (by omega))
    simp [wait_go, h0, this]

/-- A full successful HC-SR04 run: the echo line is low from `t0` until it
rises at time `rise` (within the first timeout window), stays high until it
falls at time `fall` (within the second timeout window measured from
`rise`); then the read succeeds and stores
`(fall - rise) * 0.034 / 2` centimetres. -/
theorem hcsr04_success_run (s : hcsr04_sensor_t) (lvl : Nat → Bool)
    (t0 rise fall : Nat)
    (h1 : t0 ≤ rise) (h2 : rise ≤ t0 + s.timeout_us) (h7 : rise < fall)
    (h3 : ∀ u, t0 ≤ u → u < rise → lvl u = false)
    (h4 : ∀ u, rise ≤ u → u < fall → lvl u = true)
    (h5 : lvl fall = false) (h6 : fall ≤ rise + s.timeout_us) :
    hcsr04_read_distance (some s) lvl t0 =
      (some { s with last_distance_cm := ((fall - rise : Nat) : ℚ) * (34 / 1000) / 2 },
       .ESP_OK) := by
  have hrise : wait_for_level lvl true t0 s.timeout_us = some rise := by
    apply wait_go_finds lvl true s.timeout_us t0 rise h1 h2
    · intro v hv1 hv2
      simp [h3 v hv1 hv2]
    · exact h4 rise le_rfl h7
  have hfall : wait_for_level lvl false rise s.timeout_us = some fall := by
    apply wait_go_finds lvl false s.timeout_us rise fall (le_of_lt h7) h6
    · intro v hv1 hv2
      simp [h4 v hv1 hv2]
    · exact h5
  simp [hcsr04_read_distance, hrise, hfall]

/-- Reading back the field just written returns the written value. -/
theorem getField_setField_same (s : sensor_data_t) (f : SnapField) (v : f.Ty) :
    getField (setField s f v) f = v := by
  cases f <;> rfl

/-- Writing one field leaves every other field unchanged. -/
theorem getField_setField_ne (s : sensor_data_t) (f g : SnapField) (v : g.Ty)
    (h : g ≠ f) : getField (setField s g v) f = getField s f := by
  cases f <;> cases g <;> first | rfl | exact absurd rfl h

/-- A sequence of writes that never touches field `f` leaves `f` unchanged. -/
theorem getField_applyWrites_untouched (ws : List FieldWrite) :
    ∀ (s : sensor_data_t) (f : SnapField), (∀ w ∈ ws, w.field ≠ f) →
      getField (applyWrites s ws) f = getField s f := by
  induction ws with
  | nil => intro s f _; rfl
  | cons w rest ih =>
    intro s f h
    have hstep : applyWrites s (w :: rest) =
        applyWrites (setField s w.field w.val) rest := rfl
    rw [hstep, ih _ f (fun w2 h2 => h w2 (List.mem_cons_of_mem w h2)),
        getField_setField_ne _ _ _ _ (h w (List.mem_cons_self w rest))]

/-- No lost update: after applying any sequence of atomic writes to pairwise
distinct fields, each written field holds exactly the value its write
supplied, whatever the interleaving order was. -/
theorem applyWrites_latest (ws : List FieldWrite)
    (hdisj : ws.Pairwise (fun a b => a.field ≠ b.field)) :
    ∀ (s : sensor_data_t) (w : FieldWrite), w ∈ ws →
      getField (applyWrites s ws) w.field = w.val := by
  induction ws with
  | nil => intro s w hw; cases hw
  | cons w0 rest ih =>
    intro s w hw
    have hpc := List.pairwise_cons.mp hdisj
    have hstep : applyWrites s (w0 :: rest) =
        applyWrites (setField s w0.field w0.val) rest := rfl
    rcases List.mem_cons.mp hw with rfl | hmem
    · rw [hstep, getField_applyWrites_untouched rest _ _
        (fun w2 h2 => (hpc.1 w2 h2).symm)]
      exact getField_setField_same _ _ _
    · exact hstep ▸ ih hpc.2 _ w hmem

/-- Scheduled wake times of a `vTaskDelayUntil` loop advance by exactly one
period per cycle from the initial wake time: no drift accumulates. -/
theorem task_wake_closed_form (start period : Nat) :
    ∀ n, task_wake start period n = start + n * period := by
  intro n
  induction n with
  | zero => simp [task_wake]
  | succ k ih =>
    show vTaskDelayUntil (task_wake start period k) period = _
    rw [ih, vTaskDelayUntil]
    ring

/-- The code's millisecond debounce test (`(t - last) / 1000 >= debounce_ms`
with C truncating division) is equivalent to the microsecond-level statement
that the elapsed time is at least the debounce window. -/
theorem tdiv_debounce_iff (e d : Int) (he : 0 ≤ e) :
    (d ≤ Int.tdiv e 1000) ↔ d * 1000 ≤ e := by
  rw [Int.tdiv_eq_ediv he (by norm_num)]
  exact Int.le_ediv_iff_mul_le (by norm_num)


/-- C1.  Every `pir_read` call returns exactly the raw sampled level, and the
motion event counter increments by exactly one precisely when the raw level
rises (false to true) and at least the debounce window (in µs) has elapsed
since the last counted trigger; in every other case it is unchanged.
Hypotheses: the monotonic clock has not gone backwards past the recorded
trigger time, and the `uint32_t` counter is not at its wrap point. -/
theorem pir_read_correct (p : pir_sensor_t) (raw : Bool) (t : Int)
    (hmono : p.last_trigger_time ≤ t) (hcnt : p.motion_count + 1 < 2 ^ 32) :
    (pir_read (some p) raw t).2 = raw ∧
    ∀ q, (pir_read (some p) raw t).1 = some q →
      ((raw = true ∧ p.last_state = false ∧
          (p.debounce_ms : Int) * 1000 ≤ t - p.last_trigger_time) →
        q.motion_count = p.motion_count + 1) ∧
      (¬(raw = true ∧ p.last_state = false ∧
          (p.debounce_ms : Int) * 1000 ≤ t - p.last_trigger_time) →
        q.motion_count = p.motion_count) := by
  have he : (0 : Int) ≤ t - p.last_trigger_time := by omega
  have hiff := tdiv_debounce_iff (t - p.last_trigger_time) (p.debounce_ms : Int) he
  refine ⟨rfl, ?_⟩
  intro q hq
  by_cases h1 : raw = true ∧ p.last_state = false
  · by_cases h2 : (p.debounce_ms : Int) ≤ Int.tdiv (t - p.last_trigger_time) 1000
    · have hq2 : (pir_read (some p) raw t).1 = some
          (⟨p.pin_num, raw, (p.motion_count + 1) % 2 ^ 32,
            p.debounce_ms, t⟩ : pir_sensor_t) := by
        simp [pir_read, h1.1, h1.2, ge_iff_le, h2]
      have hqe := Option.some.inj (hq2.symm.trans hq)
      refine ⟨fun _ => ?_, fun hneg => absurd ⟨h1.1, h1.2, hiff.mp h2⟩ hneg⟩
      rw [← hqe]
      exact Nat.mod_eq_of_lt hcnt
    · have hq2 : (pir_read (some p) raw t).1 = some
          (⟨p.pin_num, raw, p.motion_count, p.debounce_ms,
            p.last_trigger_time⟩ : pir_sensor_t) := by
        simp [pir_read, h1.1, h1.2, ge_iff_le, h2]
      have hqe := Option.some.inj (hq2.symm.trans hq)
      refine ⟨fun hcond => absurd (hiff.mpr hcond.2.2) h2, fun _ => ?_⟩
      rw [← hqe]
  · have hq2 : (pir_read (some p) raw t).1 = some
        (⟨p.pin_num, raw, p.motion_count, p.debounce_ms,
          p.last_trigger_time⟩ : pir_sensor_t) := by
      by_cases hr : raw = true
      · have hl : ¬p.last_state = false := fun hl => h1 ⟨hr, hl⟩
        simp [pir_read, hr, hl]
      · simp [pir_read, hr]
    have hqe := Option.some.inj (hq2.symm.trans hq)
    refine ⟨fun hcond => absurd ⟨hcond.1, hcond.2.1⟩ h1, fun _ => ?_⟩
    rw [← hqe]

/-- Witness for C1: from the freshly initialised sensor (`last_state` false,
`last_trigger_time` 0, debounce 50 ms) a high sample at t = 60000 µs is a
counted rising edge, so the returned level is high and the counter becomes 1. -/
theorem pir_read_correct_witness :
    (pir_read (some ⟨13, false, 0, 50, 0⟩) true 60000).2 = true ∧
    ∀ q, (pir_read (some ⟨13, false, 0, 50, 0⟩) true 60000).1 = some q →
      q.motion_count = 0 + 1 := by
  have h := pir_read_correct ⟨13, false, 0, 50, 0⟩ true 60000
    (by norm_num) (by norm_num)
  exact ⟨h.1, fun q hq => ((h.2 q hq).1 ⟨rfl, rfl, by norm_num⟩)⟩

/-- Example echo trace for the witnesses: high exactly on [5, 1005), i.e. a
rise at t = 5 and a fall at t = 1005 (a 1000 µs pulse). -/
def echo_trace_1000us (t : Nat) : Bool := 5 ≤ t ∧ t < 1005

/-- C2.  Whenever the echo line rises within the configured timeout of the
start of the wait and falls within the timeout measured from the rise,
`hcsr04_read_distance` succeeds and stores
`pulse_width * 0.034 / 2` centimetres, where
`pulse_width = fall - rise` µs. -/
theorem hcsr04_read_success_formula (s : hcsr04_sensor_t) (lvl : Nat → Bool)
    (t0 rise fall : Nat)
    (h1 : t0 ≤ rise) (h2 : rise ≤ t0 + s.timeout_us) (h7 : rise < fall)
    (h3 : ∀ u, t0 ≤ u → u < rise → lvl u = false)
    (h4 : ∀ u, rise ≤ u → u < fall → lvl u = true)
    (h5 : lvl fall = false) (h6 : fall ≤ rise + s.timeout_us) :
    (hcsr04_read_distance (some s) lvl t0).2 = .ESP_OK ∧
    (hcsr04_read_distance (some s) lvl t0).1 =
      some ⟨((fall - rise : Nat) : ℚ) * (34 / 1000) / 2, s.timeout_us⟩ := by
  rw [hcsr04_success_run s lvl t0 rise fall h1 h2 h7 h3 h4 h5 h6]
  exact ⟨rfl, rfl⟩

/-- Witness for C2: with a 1500 µs timeout, an echo rise at t = 5 and fall at
t = 1005 (pulse width 1000 µs) succeed and store exactly 17 cm
(`1000 * 0.034 / 2`). -/
theorem hcsr04_read_success_formula_witness :
    (hcsr04_read_distance (some ⟨0, 1500⟩) echo_trace_1000us 0).2 = .ESP_OK ∧
    (hcsr04_read_distance (some ⟨0, 1500⟩) echo_trace_1000us 0).1 =
      some ⟨17, 1500⟩ := by
  have h := hcsr04_read_success_formula ⟨0, 1500⟩ echo_trace_1000us 0 5 1005
    (by norm_num) (by norm_num) (by norm_num)
    (by intro u _ hu; simp [echo_trace_1000us]; omega)
    (by intro u hu1 hu2; simp [echo_trace_1000us]; omega)
    (by simp [echo_trace_1000us]) (by norm_num)
  refine ⟨h.1, ?_⟩
  rw [h.2]
  norm_num

/-- C6.  The two wait phases use independent timeout windows of the same
configured duration, the second measured from the rise: a rise arriving at
the very end of the first window followed by a fall at the very end of the
second window still succeeds, even though the total elapsed time `2 * T`
exceeds the nominal timeout `T`. -/
theorem hcsr04_two_phase_timeout (s : hcsr04_sensor_t) (lvl : Nat → Bool)
    (t0 : Nat) (hT : 0 < s.timeout_us)
    (hlow : ∀ u, t0 ≤ u → u < t0 + s.timeout_us → lvl u = false)
    (hhigh : ∀ u, t0 + s.timeout_us ≤ u → u < t0 + 2 * s.timeout_us → lvl u = true)
    (hfall : lvl (t0 + 2 * s.timeout_us) = false) :
    (hcsr04_read_distance (some s) lvl t0).2 = .ESP_OK ∧
    (t0 + 2 * s.timeout_us) - t0 > s.timeout_us := by
  have h := hcsr04_success_run s lvl t0 (t0 + s.timeout_us) (t0 + 2 * s.timeout_us)
    (by omega) (by omega) (by omega) hlow
    (fun u hu1 hu2 => hhigh u hu1 hu2) hfall (by omega)
  rw [h]
  exact ⟨rfl, by omega⟩

/-- Example echo trace for the C6 witness: high exactly on [4, 8). -/
def echo_trace_slow_rise (t : Nat) : Bool := 4 ≤ t ∧ t < 8

/-- Witness for C6: with timeout 4 µs, a rise at t = 4 (the full first
window) and a fall at t = 8 (the full second window) still succeed, with
total elapsed time 8 > 4. -/
theorem hcsr04_two_phase_timeout_witness :
    (hcsr04_read_distance (some ⟨0, 4⟩) echo_trace_slow_rise 0).2 = .ESP_OK ∧
    (0 + 2 * 4) - 0 > 4 :=
  hcsr04_two_phase_timeout ⟨0, 4⟩ echo_trace_slow_rise 0 (by norm_num)
    (by
      intro u _ hu
      have hu4 : u < 4 := by simpa using hu
      simp [echo_trace_slow_rise]; omega)
    (by
      intro u hu1 hu2
      have hb1 : 4 ≤ u := by simpa using hu1
      have hb2 : u < 8 := by simpa using hu2
      simp [echo_trace_slow_rise]; omega)
    (by simp [echo_trace_slow_rise])


/-- Evaluation of `read_data_bits` once the 40 bits assemble into `data`:
the result is determined by the checksum comparison. -/
theorem read_data_bits_of_assemble (s : dht11_sensor_t) (bits : List BitRead)
    (data : List Nat)
    (hasm : assemble_bits 40 0 (List.replicate 5 0) bits = some data) :
    read_data_bits s bits =
      if (data.getD 0 0 + data.getD 1 0 + data.getD 2 0 + data.getD 3 0) % 256 ≠
          data.getD 4 0 then
        (s, .ESP_ERR_INVALID_CRC)
      else
        (⟨s.pin, (data.getD 2 0 : ℚ), (data.getD 0 0 : ℚ), s.last_read_time_us⟩,
         .ESP_OK) := by
  unfold read_data_bits
  rw [hasm]

/-- Evaluation of `dht11_read` past the rate limit and both acknowledgement
waits: the result is that of `read_data_bits`, with the success timestamp
recorded only on full success. -/
theorem dht11_read_of_acks (s : dht11_sensor_t) (env : DhtEnv)
    (hrate : ¬(env.cur_time - s.last_read_time_us < 2000 * 1000))
    (hlow : env.resp_low_ok = true) (hhigh : env.resp_high_ok = true) :
    dht11_read (some s) env =
      (match read_data_bits s env.bits with
       | (s1, .ESP_OK) =>
         (some ⟨s1.pin, s1.last_temperature, s1.last_humidity, env.end_time⟩,
          .ESP_OK, dht11_start_actions)
       | (s1, e) => (some s1, e, dht11_start_actions)) := by
  unfold dht11_read
  dsimp only
  rw [if_neg hrate, if_neg (by simp [hlow]), if_neg (by simp [hhigh])]

/-- C3.  For any 40 pulse widths that assemble into bytes `data[0..4]`, past
the rate limit and acknowledgement: if `data[4]` differs from
`(data[0]+data[1]+data[2]+data[3]) mod 256` the read fails with the checksum
error and the stored values are unchanged; if it matches, the driver stores
`humidity = data[0]` and `temperature = data[2]` (fractional bytes `data[1]`,
`data[3]` are discarded) and records the success timestamp. -/
theorem dht11_checksum_validation (s : dht11_sensor_t) (env : DhtEnv)
    (data : List Nat)
    (hrate : ¬(env.cur_time - s.last_read_time_us < 2000 * 1000))
    (hlow : env.resp_low_ok = true) (hhigh : env.resp_high_ok = true)
    (hasm : assemble_bits 40 0 (List.replicate 5 0) env.bits = some data) :
    ((data.getD 4 0 ≠
        (data.getD 0 0 + data.getD 1 0 + data.getD 2 0 + data.getD 3 0) % 256) →
      dht11_read (some s) env = (some s, .ESP_ERR_INVALID_CRC, dht11_start_actions)) ∧
    ((data.getD 4 0 =
        (data.getD 0 0 + data.getD 1 0 + data.getD 2 0 + data.getD 3 0) % 256) →
      dht11_read (some s) env =
        (some ⟨s.pin, (data.getD 2 0 : ℚ), (data.getD 0 0 : ℚ), env.end_time⟩,
         .ESP_OK, dht11_start_actions)) := by
  have hbase := dht11_read_of_acks s env hrate hlow hhigh
  have hrdb := read_data_bits_of_assemble s env.bits data hasm
  constructor
  · intro hne
    rw [if_pos (fun h => hne h.symm)] at hrdb
    rw [hbase, hrdb]
  · intro heq
    rw [if_neg (not_not_intro heq.symm)] at hrdb
    rw [hbase, hrdb]

/-- Short DHT11 pulse (26 µs high): decoded as bit `0`. -/
def bit0 : BitRead := .pulse 26

/-- Long DHT11 pulse (70 µs high): decoded as bit `1`. -/
def bit1 : BitRead := .pulse 70

/-- The spec's example frame `0x28 0x00 0x17 0x00 0x3F` as 40 pulse widths,
MSB first within each byte. -/
def example_frame_bits : List BitRead :=
  [bit0, bit0, bit1, bit0, bit1, bit0, bit0, bit0,
   bit0, bit0, bit0, bit0, bit0, bit0, bit0, bit0,
   bit0, bit0, bit0, bit1, bit0, bit1, bit1, bit1,
   bit0, bit0, bit0, bit0, bit0, bit0, bit0, bit0,
   bit0, bit0, bit1, bit1, bit1, bit1, bit1, bit1]

/-- Witness for C3: the example frame `0x28 0x00 0x17 0x00 0x3F` passes the
checksum and stores humidity 40 (0x28) and temperature 23 (0x17), recording
the success timestamp. -/
theorem dht11_checksum_validation_witness :
    dht11_read (some ⟨15, 0, 0, 0⟩)
        ⟨2000000, true, true, example_frame_bits, 2500000⟩ =
      (some ⟨15, 23, 40, 2500000⟩, .ESP_OK, dht11_start_actions) := by
  have h := (dht11_checksum_validation ⟨15, 0, 0, 0⟩
    ⟨2000000, true, true, example_frame_bits, 2500000⟩ [40, 0, 23, 0, 63]
    (by norm_num) rfl rfl (by decide)).2 (by norm_num)
  simpa using h

/-- Evaluation of `dht11_read` when called within the minimum read
interval: immediate rejection, empty action trace, unchanged state. -/
theorem dht11_read_rate_limited (s : dht11_sensor_t) (env : DhtEnv)
    (h : env.cur_time - s.last_read_time_us < 2000 * 1000) :
    dht11_read (some s) env = (some s, .ESP_ERR_INVALID_STATE, []) := by
  unfold dht11_read
  dsimp only
  rw [if_pos h]

/-- C4.  A `dht11_read` attempted less than 2000 ms after the recorded
last-success timestamp fails immediately with the too-soon error, performs
no pin-level or pin-direction mutation (empty bus-action trace), and leaves
the driver state unchanged. -/
theorem dht11_too_soon_no_bus_activity (s : dht11_sensor_t) (env : DhtEnv)
    (h : env.cur_time - s.last_read_time_us < 2000 * 1000) :
    dht11_read (some s) env = (some s, .ESP_ERR_INVALID_STATE, []) :=
  dht11_read_rate_limited s env h

/-- Witness for C4: a read 1500 ms after a success at t = 1 s is rejected
with an empty bus-action trace and unchanged state. -/
theorem dht11_too_soon_no_bus_activity_witness :
    dht11_read (some ⟨15, 21, 55, 1000000⟩) ⟨2500000, true, true, [], 0⟩ =
      (some ⟨15, 21, 55, 1000000⟩, .ESP_ERR_INVALID_STATE, []) :=
  dht11_too_soon_no_bus_activity ⟨15, 21, 55, 1000000⟩
    ⟨2500000, true, true, [], 0⟩ (by norm_num)

/-- On any failing outcome, `read_data_bits` returns the sensor state it was
given. -/
theorem read_data_bits_fail_id (s : dht11_sensor_t) (bits : List BitRead)
    (hne : (read_data_bits s bits).2 ≠ .ESP_OK) :
    (read_data_bits s bits).1 = s := by
  unfold read_data_bits at hne ⊢
  rcases hasm : assemble_bits 40 0 (List.replicate 5 0) bits with _ | data
  · rfl
  · rw [hasm] at hne
    dsimp only at hne ⊢
    by_cases hck : (data.getD 0 0 + data.getD 1 0 + data.getD 2 0 +
        data.getD 3 0) % 256 ≠ data.getD 4 0
    · rw [if_pos hck]
    · rw [if_neg hck] at hne
      exact absurd rfl hne

/-- C5.  A failed read never mutates stored driver state: any
`hcsr04_read_distance` outcome other than success returns the sensor state
exactly as it was (stored distance retained), and any `dht11_read` outcome
other than success (too-soon, timeout, checksum mismatch) returns the
sensor state exactly as it was (stored temperature, humidity and
last-success timestamp retained). -/
theorem failed_read_preserves_state :
    (∀ (s : hcsr04_sensor_t) (lvl : Nat → Bool) (t0 : Nat),
      (hcsr04_read_distance (some s) lvl t0).2 ≠ .ESP_OK →
      (hcsr04_read_distance (some s) lvl t0).1 = some s) ∧
    (∀ (s : dht11_sensor_t) (env : DhtEnv),
      (dht11_read (some s) env).2.1 ≠ .ESP_OK →
      (dht11_read (some s) env).1 = some s) := by
  constructor
  · intro s lvl t0 hne
    rcases hw1 : wait_for_level lvl true t0 s.timeout_us with _ | echo_start
    · simp [hcsr04_read_distance, hw1]
    · rcases hw2 : wait_for_level lvl false echo_start s.timeout_us with _ | echo_end
      · simp [hcsr04_read_distance, hw1, hw2]
      · exact absurd (by simp [hcsr04_read_distance, hw1, hw2]) hne
  · intro s env hne
    by_cases h1 : env.cur_time - s.last_read_time_us < 2000 * 1000
    · rw [dht11_read_rate_limited s env h1]
    · rcases hl : env.resp_low_ok with _ | _
      · unfold dht11_read
        dsimp only
        rw [if_neg h1, if_pos hl]
      · rcases hh : env.resp_high_ok with _ | _
        · unfold dht11_read
          dsimp only
          rw [if_neg h1, if_neg (by simp [hl]), if_pos hh]
        · have hbase := dht11_read_of_acks s env h1 hl hh
          rcases hrdb : read_data_bits s env.bits with ⟨s1, e⟩
          rw [hbase, hrdb] at hne ⊢
          cases e
          · dsimp only at hne
            exact absurd rfl hne
          all_goals
            dsimp only at hne ⊢
            have hfail : (read_data_bits s env.bits).2 ≠ .ESP_OK := by
              rw [hrdb]
              simp
            have hs1 := read_data_bits_fail_id s env.bits hfail
            rw [hrdb] at hs1
            dsimp only at hs1
            rw [hs1]

/-- Witness for C5: an HC-SR04 read against a permanently low echo line
times out and returns the stored state (distance 10 cm, timeout 3 µs)
unchanged. -/
theorem failed_read_preserves_state_witness :
    (hcsr04_read_distance (some ⟨10, 3⟩) (fun _ => false) 0).1 = some ⟨10, 3⟩ :=
  failed_read_preserves_state.1 ⟨10, 3⟩ (fun _ => false) 0 (by decide)

/-- C9.  `dht11_init` sets the last-success timestamp to 0, so a read
attempted while the monotonic clock is below 2000 ms is rejected as
too-soon even though no successful read has ever occurred, and the first
read can only succeed once at least 2000 ms of uptime have elapsed. -/
theorem dht11_first_read_too_soon (g : dht11_sensor_t) (pin : Nat)
    (env : DhtEnv) (s0 : dht11_sensor_t)
    (hinit : (dht11_init (some g) pin).1 = some s0)
    (hclk : 0 ≤ env.cur_time) :
    (env.cur_time < 2000000 →
      (dht11_read (some s0) env).2.1 = .ESP_ERR_INVALID_STATE) ∧
    ((dht11_read (some s0) env).2.1 = .ESP_OK → 2000000 ≤ env.cur_time) := by
  have hs0 : (⟨pin, 0, 0, 0⟩ : dht11_sensor_t) = s0 := Option.some.inj hinit
  have hmain : env.cur_time < 2000000 →
      (dht11_read (some s0) env).2.1 = .ESP_ERR_INVALID_STATE := by
    intro hlt
    have hrate : env.cur_time - s0.last_read_time_us < 2000 * 1000 := by
      rw [← hs0]
      show env.cur_time - 0 < 2000 * 1000
      omega
    rw [dht11_read_rate_limited s0 env hrate]
  refine ⟨hmain, fun hok => ?_⟩
  by_contra hgt
  push_neg at hgt
  rw [hmain hgt] at hok
  exact absurd hok (by decide)

/-- Witness for C9: a first read at 1 s of uptime (clock 1000000 µs) on a
freshly initialised sensor is rejected as too-soon. -/
theorem dht11_first_read_too_soon_witness :
    (dht11_read (some ⟨15, 0, 0, 0⟩) ⟨1000000, true, true, [], 0⟩).2.1 =
      .ESP_ERR_INVALID_STATE :=
  (dht11_first_read_too_soon ⟨0, 0, 0, 0⟩ 15 ⟨1000000, true, true, [], 0⟩
    ⟨15, 0, 0, 0⟩ rfl (by norm_num)).1 (by norm_num)

/-- C10.  Every modelled public driver operation called on a `NULL` handle
returns its benign value without touching any state: `pir_read` returns
`false`, `pir_get_motion_count` returns 0, the DHT11 getters return 0.0,
and `pir_init`, `dht11_read` and `hcsr04_read_distance` return the
invalid-argument error code. -/
theorem null_handle_benign :
    (∀ (b : Bool) (t : Int), pir_read none b t = (none, false)) ∧
    pir_get_motion_count none = 0 ∧
    dht11_get_temperature none = 0 ∧
    dht11_get_humidity none = 0 ∧
    (∀ pin, pir_init none pin = (none, .ESP_ERR_INVALID_ARG)) ∧
    (∀ env, dht11_read none env = (none, .ESP_ERR_INVALID_ARG, [])) ∧
    (∀ (lvl : Nat → Bool) (t0 : Nat),
      hcsr04_read_distance none lvl t0 = (none, .ESP_ERR_INVALID_ARG)) :=
  ⟨fun _ _ => rfl, rfl, rfl, rfl, fun _ => rfl, fun _ => rfl, fun _ _ => rfl⟩

/-- Counterexample for C7: the claim that the display task has the longest
period is false in the code: `dht11_task` (3000 ms) has a longer period
than `lcd_task` (1000 ms). -/
theorem task_periods_counterexample :
    ¬(∀ t ∈ periodic_tasks, t.period_ms ≤ lcd_task_spec.period_ms) := by
  decide

/-- C7 (amended).  Priorities are strictly ordered motion > ranging >
environmental/wireless > display (the wireless task shares the
environmental priority), the motion task has the shortest period, the
environmental task — not the display task — has the longest period, every
fixed-period task schedules with `vTaskDelayUntil`, and the resulting wake
times advance by exactly one period per cycle from the initial wake time. -/
theorem task_scheduling_amended :
    (pir_task_spec.priority > ultrasonic_task_spec.priority ∧
     ultrasonic_task_spec.priority > dht11_task_spec.priority ∧
     dht11_task_spec.priority = ble_client_task_priority ∧
     dht11_task_spec.priority > lcd_task_spec.priority) ∧
    (∀ t ∈ periodic_tasks, pir_task_spec.period_ms ≤ t.period_ms) ∧
    (∀ t ∈ periodic_tasks, t.period_ms ≤ dht11_task_spec.period_ms) ∧
    (∀ t ∈ periodic_tasks, t.delay_until = true) ∧
    (∀ start period n, task_wake start period n = start + n * period) :=
  ⟨by decide, by decide, by decide, by decide,
   fun start period => task_wake_closed_form start period⟩

/-- Witness for C7 (amended), at concrete tasks: the motion task's period is
at most the environmental task's, and the display task's period is at most
the environmental task's. -/
theorem task_scheduling_amended_witness :
    pir_task_spec.period_ms ≤ dht11_task_spec.period_ms ∧
    lcd_task_spec.period_ms ≤ dht11_task_spec.period_ms :=
  ⟨task_scheduling_amended.2.1 dht11_task_spec (by decide),
   task_scheduling_amended.2.2.1 lcd_task_spec (by decide)⟩

/-- C8.  Every snapshot-field store in the program is performed by that
field's unique owning task (`field_owner` is a function, so no two tasks
ever write the same field), and for any interleaving of mutex-protected
atomic writes to pairwise distinct fields, the snapshot afterwards holds
each written field's own value: no update is lost. -/
theorem snapshot_ownership_no_lost_update :
    (∀ p ∈ program_writes, p.1 = field_owner p.2) ∧
    (∀ (s : sensor_data_t) (ws : List FieldWrite),
      ws.Pairwise (fun a b => a.field ≠ b.field) →
      ∀ w ∈ ws, getField (applyWrites s ws) w.field = w.val) := by
  refine ⟨by decide, ?_⟩
  intro s ws h w hw
  exact applyWrites_latest ws h s w hw

/-- Witness for C8: applying the motion write `true` and the temperature
write `25` (in that interleaving order) to the initial snapshot leaves the
motion field holding exactly the motion write's value. -/
theorem snapshot_ownership_no_lost_update_witness :
    getField (applyWrites sensor_data_init
      [⟨.motion_detected, true⟩, ⟨.temperature, 25⟩]) SnapField.motion_detected = true :=
  snapshot_ownership_no_lost_update.2 sensor_data_init
    [⟨.motion_detected, true⟩, ⟨.temperature, 25⟩]
    (List.Pairwise.cons
      (fun b hb => by
        rw [List.mem_singleton.mp hb]
        exact fun hcon => SnapField.noConfusion hcon)
      (List.pairwise_singleton _ _))
    ⟨.motion_detected, true⟩ (List.mem_cons_self _ _)
